import Mathlib

/-!
Shallow embedding of the railway point/crossover controller
(`src/railway_crossover_control.ino`) and of the crossing-light state
machine (`src/unnamed/part_000`).

Modelling conventions:
* Arduino `int` values (analog readings, pin numbers, logical levels)
  are `Int`; `unsigned long` millisecond timestamps are `Nat` with a
  monotone clock, so the wraparound-safe unsigned difference `a - b`
  of the source is the truncated natural subtraction `a - b`.
* `analogRead` is modelled by passing the value the read would return
  as an explicit argument; the number of reads actually performed is
  reported in the result so that "no read happened" is observable.
* `digitalWrite` calls on the relay/light outputs are collected into an
  ordered list of `(pin, level)` write events.
* Serial logging is not modelled (its only state effect, `lastStatus`,
  is kept).
-/

namespace Railway

/-- Arduino digital LOW level. -/
def LOW : Int := 0

/-- Arduino digital HIGH level. -/
def HIGH : Int := 1

-- Analog input pin numbers (Arduino Uno numbering for A2..A4).
def CROSSOVER_SENSOR_PIN : Int := 16
def Y1_SENSOR_PIN : Int := 17
def Y2_SENSOR_PIN : Int := 18

-- Relay output pins.
def RELAY_LINE1_RIGHT_TO_LEFT : Int := 3
def RELAY_LINE2_LEFT_TO_RIGHT : Int := 4
def RELAY_Y1_LINE1 : Int := 5
def RELAY_Y1_LINE2 : Int := 6
def RELAY_Y2_LINE1 : Int := 7
def RELAY_Y2_LINE2 : Int := 8

def CROSSOVER_ACTIVE : Int := LOW
def CROSSOVER_INACTIVE : Int := HIGH

def TRACK_POWER_ON : Int := HIGH
def TRACK_POWER_OFF : Int := LOW

def ROUTE_LINE1_TO_LINE3 : Int := 0
def ROUTE_LINE2_TO_LINE3 : Int := 1

def ANALOG_THRESHOLD : Int := 410
def ANALOG_HYSTERESIS : Int := 20

def DEBOUNCE_DELAY : Nat := 50
def SENSOR_SAMPLE_INTERVAL : Nat := 10

inductive PointType where
  | POINT_COACTING
  | POINT_Y_BRANCH
deriving DecidableEq

export PointType (POINT_COACTING POINT_Y_BRANCH)

/-- The `PointControl` struct of the source. -/
structure PointControl where
  label : String
  type : PointType
  sensorPin : Int
  relayLine1 : Int
  relayLine2 : Int
  analogThreshold : Int
  analogHysteresis : Int
  currentState : Int
  lastReading : Int
  lastDebounceTime : Nat
  lastSampleTime : Nat
  lastAnalogValue : Int
  lastStatus : Int
deriving DecidableEq

/-- Arduino's `constrain(amt, low, high)` macro. -/
def constrain (amt low high : Int) : Int :=
  if amt < low then low else if amt > high then high else amt

/-- The `lowerBound` local of `interpretState` (line 217). -/
def lowerBound (p : PointControl) : Int :=
  constrain (p.analogThreshold - p.analogHysteresis) 0 1023

/-- The `upperBound` local of `interpretState` (line 218). -/
def upperBound (p : PointControl) : Int :=
  constrain (p.analogThreshold + p.analogHysteresis) 0 1023

/-- Function `interpretState` (lines 216-232). -/
def interpretState (p : PointControl) (analogValue priorState : Int) : Int :=
  if p.type = POINT_COACTING then
    if priorState = CROSSOVER_ACTIVE then
      if analogValue > upperBound p then CROSSOVER_INACTIVE else CROSSOVER_ACTIVE
    else
      if analogValue < lowerBound p then CROSSOVER_ACTIVE else CROSSOVER_INACTIVE
  else
    if priorState = ROUTE_LINE1_TO_LINE3 then
      if analogValue > upperBound p then ROUTE_LINE2_TO_LINE3 else ROUTE_LINE1_TO_LINE3
    else
      if analogValue < lowerBound p then ROUTE_LINE1_TO_LINE3 else ROUTE_LINE2_TO_LINE3

/-- Function `applyPointLogic` (lines 234-266): returns the updated record together
with the ordered list of `digitalWrite (pin, level)` events it performs. -/
def applyPointLogic (p : PointControl) : PointControl × List (Int × Int) :=
  let writes :=
    if p.type = POINT_COACTING then
      if p.currentState = CROSSOVER_ACTIVE then
        [(p.relayLine1, TRACK_POWER_OFF), (p.relayLine2, TRACK_POWER_OFF)]
      else
        [(p.relayLine1, TRACK_POWER_ON), (p.relayLine2, TRACK_POWER_ON)]
    else
      if p.currentState = ROUTE_LINE1_TO_LINE3 then
        [(p.relayLine1, TRACK_POWER_ON), (p.relayLine2, TRACK_POWER_OFF)]
      else
        [(p.relayLine1, TRACK_POWER_OFF), (p.relayLine2, TRACK_POWER_ON)]
  let p' := if p.lastStatus ≠ p.currentState then { p with lastStatus := p.currentState } else p
  (p', writes)

/-- Result of one `updatePoint` / `initializePoint` call: the updated
record, the relay write events, and the number of `analogRead` calls. -/
structure TickResult where
  point : PointControl
  writes : List (Int × Int)
  sensorReads : Nat
deriving DecidableEq

/-- Function `updatePoint` (lines 191-214).  `analogValue` is the value an
`analogRead` would return on this tick. -/
def updatePoint (p : PointControl) (analogValue : Int) (now : Nat) : TickResult :=
  if now - p.lastSampleTime < SENSOR_SAMPLE_INTERVAL then
    ⟨p, [], 0⟩
  else
    let p := { p with lastSampleTime := now }
    let reading := interpretState p analogValue p.currentState
    let p := if reading ≠ p.lastReading then { p with lastDebounceTime := now } else p
    let p := { p with lastReading := reading }
    let p :=
      if DEBOUNCE_DELAY ≤ now - p.lastDebounceTime ∧ p.currentState ≠ reading then
        { p with currentState := reading, lastAnalogValue := analogValue, lastStatus := -1 }
      else p
    let r := applyPointLogic p
    ⟨r.1, r.2, 1⟩

/-- Function `initializePoint` (lines 176-189). -/
def initializePoint (p : PointControl) (analogValue : Int) (now : Nat) : TickResult :=
  let p := { p with lastDebounceTime := now, lastSampleTime := now - SENSOR_SAMPLE_INTERVAL }
  let p := { p with lastAnalogValue := analogValue }
  let p := { p with currentState := interpretState p analogValue p.currentState }
  let p := { p with lastReading := p.currentState, lastStatus := -1 }
  let r := applyPointLogic p
  ⟨r.1, r.2, 1⟩

/-- First element of the `pointControls` array (lines 89-103). -/
def crossoverPoint : PointControl :=
  { label := "Coacting Crossover"
    type := POINT_COACTING
    sensorPin := CROSSOVER_SENSOR_PIN
    relayLine1 := RELAY_LINE1_RIGHT_TO_LEFT
    relayLine2 := RELAY_LINE2_LEFT_TO_RIGHT
    analogThreshold := ANALOG_THRESHOLD
    analogHysteresis := ANALOG_HYSTERESIS
    currentState := CROSSOVER_ACTIVE
    lastReading := CROSSOVER_ACTIVE
    lastDebounceTime := 0
    lastSampleTime := 0
    lastAnalogValue := 0
    lastStatus := -1 }

/-- Second element of the `pointControls` array (lines 104-118). -/
def northYPoint : PointControl :=
  { label := "North Y Junction"
    type := POINT_Y_BRANCH
    sensorPin := Y1_SENSOR_PIN
    relayLine1 := RELAY_Y1_LINE1
    relayLine2 := RELAY_Y1_LINE2
    analogThreshold := ANALOG_THRESHOLD
    analogHysteresis := ANALOG_HYSTERESIS
    currentState := ROUTE_LINE1_TO_LINE3
    lastReading := ROUTE_LINE1_TO_LINE3
    lastDebounceTime := 0
    lastSampleTime := 0
    lastAnalogValue := 0
    lastStatus := -1 }

/-- Third element of the `pointControls` array (lines 119-133). -/
def southYPoint : PointControl :=
  { label := "South Y Junction"
    type := POINT_Y_BRANCH
    sensorPin := Y2_SENSOR_PIN
    relayLine1 := RELAY_Y2_LINE1
    relayLine2 := RELAY_Y2_LINE2
    analogThreshold := ANALOG_THRESHOLD
    analogHysteresis := ANALOG_HYSTERESIS
    currentState := ROUTE_LINE1_TO_LINE3
    lastReading := ROUTE_LINE1_TO_LINE3
    lastDebounceTime := 0
    lastSampleTime := 0
    lastAnalogValue := 0
    lastStatus := -1 }

/-- The `pointControls` array (lines 88-134). -/
def pointControls : List PointControl := [crossoverPoint, northYPoint, southYPoint]

/-- The relay levels `applyPointLogic` writes for a given point kind and
accepted state: `(level for relayLine1, level for relayLine2)`. -/
def relayLevelsFor (t : PointType) (state : Int) : Int × Int :=
  if t = POINT_COACTING then
    if state = CROSSOVER_ACTIVE then (TRACK_POWER_OFF, TRACK_POWER_OFF)
    else (TRACK_POWER_ON, TRACK_POWER_ON)
  else
    if state = ROUTE_LINE1_TO_LINE3 then (TRACK_POWER_ON, TRACK_POWER_OFF)
    else (TRACK_POWER_OFF, TRACK_POWER_ON)

/-- The relay write events dictated by a record's kind and accepted state. -/
def relayWrites (p : PointControl) : List (Int × Int) :=
  [(p.relayLine1, (relayLevelsFor p.type p.currentState).1),
   (p.relayLine2, (relayLevelsFor p.type p.currentState).2)]

/-- Running a list of ticks `(now, analogValue)` through `updatePoint`,
returning the final record together with the number of ticks on which the
accepted state (`currentState`) changed. -/
def runTrace (p : PointControl) : List (Nat × Int) → PointControl × Nat
  | [] => (p, 0)
  | tv :: rest =>
      let q := (updatePoint p tv.2 tv.1).point
      let r := runTrace q rest
      (r.1, (if q.currentState ≠ p.currentState then 1 else 0) + r.2)

/-- Holds (`true`) iff, starting from a last-sample timestamp `prev`, every tick in
the list satisfies the sampling-interval test of `updatePoint` in turn. -/
def sampledChain : Nat → List (Nat × Int) → Bool
  | _, [] => true
  | prev, tv :: rest =>
      decide (SENSOR_SAMPLE_INTERVAL ≤ tv.1 - prev) && sampledChain tv.1 rest

/-- The configuration fields of two records agree (those read by
`interpretState` and never written by `updatePoint`). -/
def cfgEq (a b : PointControl) : Prop :=
  a.type = b.type ∧ a.analogThreshold = b.analogThreshold ∧
  a.analogHysteresis = b.analogHysteresis

/-- The timestamp of the last tick of the list, `tprev` if it is empty. -/
def lastTick (tprev : Nat) : List (Nat × Int) → Nat
  | [] => tprev
  | tv :: rest => lastTick tv.1 rest

end Railway

namespace Crossing

/-!
Embedding of the crossing-light state machine of `src/unnamed/part_000`
(`refreshCrossingState`, `activateCrossing`, `deactivateCrossing`).
The two debounced occupancy booleans are inputs of each step; light
output levels are kept as fields so `digitalWrite` effects are visible.
-/

def LIGHT_LEFT_PIN : Int := 9
def LIGHT_RIGHT_PIN : Int := 10

def FLASH_INTERVAL_MS : Nat := 500
def RELEASE_TIMEOUT_MS : Nat := 10000

def LIGHT_ACTIVE_STATE : Int := Railway.HIGH
def LIGHT_INACTIVE_STATE : Int := Railway.LOW

inductive ApproachDirection where
  | APPROACH_NONE
  | APPROACH_FROM_WEST
  | APPROACH_FROM_EAST
deriving DecidableEq

export ApproachDirection (APPROACH_NONE APPROACH_FROM_WEST APPROACH_FROM_EAST)

/-- The global state variables of the crossing controller, together with
the last level written to each light output pin. -/
structure CrossingState where
  crossingActive : Bool
  activeDirection : ApproachDirection
  farSensorSeen : Bool
  lastOccupancyActivity : Nat
  leftLampOn : Bool
  lastFlashToggle : Nat
  lightLeft : Int
  lightRight : Int
deriving DecidableEq

/-- Function `activateCrossing` (lines 218-233). -/
def activateCrossing (s : CrossingState) (now : Nat) (direction : ApproachDirection)
    (otherSensorAlreadyActive : Bool) : CrossingState :=
  { s with crossingActive := true
           activeDirection := direction
           farSensorSeen := otherSensorAlreadyActive
           lastFlashToggle := now
           leftLampOn := true
           lightLeft := LIGHT_ACTIVE_STATE
           lightRight := LIGHT_INACTIVE_STATE }

/-- Function `deactivateCrossing` (lines 235-244). -/
def deactivateCrossing (s : CrossingState) : CrossingState :=
  { s with crossingActive := false
           activeDirection := APPROACH_NONE
           farSensorSeen := false
           lightLeft := LIGHT_INACTIVE_STATE
           lightRight := LIGHT_INACTIVE_STATE
           leftLampOn := false }

/-- Function `refreshCrossingState` (lines 183-216).  Boolean conditions of the
source are written as decidable propositions on the `Bool` inputs. -/
def refreshCrossingState (s : CrossingState) (westOccupied eastOccupied : Bool)
    (now : Nat) : CrossingState :=
  let anyOccupied := westOccupied || eastOccupied
  let s := if anyOccupied = true then { s with lastOccupancyActivity := now } else s
  if s.crossingActive = false then
    if westOccupied = true then activateCrossing s now APPROACH_FROM_WEST eastOccupied
    else if eastOccupied = true then activateCrossing s now APPROACH_FROM_EAST westOccupied
    else s
  else
    let s :=
      if s.farSensorSeen = false ∧
          ((s.activeDirection = APPROACH_FROM_WEST ∧ eastOccupied = true) ∨
           (s.activeDirection = APPROACH_FROM_EAST ∧ westOccupied = true)) then
        { s with farSensorSeen := true }
      else s
    if westOccupied = false ∧ eastOccupied = false then
      if s.farSensorSeen = true then deactivateCrossing s
      else if RELEASE_TIMEOUT_MS ≤ now - s.lastOccupancyActivity then deactivateCrossing s
      else s
    else s

end Crossing

namespace Railway

theorem lowerBound_le_upperBound (p : PointControl) (hh : 0 ≤ p.analogHysteresis) :
    lowerBound p ≤ upperBound p := by
  unfold lowerBound upperBound constrain
  split_ifs <;> omega

/-- Function `interpretState` only reads the configuration fields, so updating the
mutable fields does not change it. -/
theorem interpretState_cfg {a b : PointControl} (ht : a.type = b.type)
    (hth : a.analogThreshold = b.analogThreshold)
    (hhy : a.analogHysteresis = b.analogHysteresis) (v s : Int) :
    interpretState a v s = interpretState b v s := by
  unfold interpretState lowerBound upperBound
  rw [ht, hth, hhy]

/-- The mutable-field updates performed by `updatePoint` leave
`interpretState` unchanged. -/
theorem interpretState_lastSampleTime (p : PointControl) (t : Nat) (v s : Int) :
    interpretState { p with lastSampleTime := t } v s = interpretState p v s := rfl

theorem updatePoint_skip (p : PointControl) (v : Int) (now : Nat)
    (h : now - p.lastSampleTime < SENSOR_SAMPLE_INTERVAL) :
    updatePoint p v now = ⟨p, [], 0⟩ := by
  unfold updatePoint
  rw [if_pos h]

theorem applyPointLogic_fst (p : PointControl) :
    (applyPointLogic p).1 = { p with lastStatus := p.currentState } := by
  rcases p with ⟨lab, ty, sp, r1, r2, th, hy, cur, lr, ldt, lst, lav, stat⟩
  by_cases h : stat ≠ cur
  · simp [applyPointLogic, h]
  · push_neg at h
    simp [applyPointLogic, h]

theorem applyPointLogic_snd (p : PointControl) :
    (applyPointLogic p).2 = relayWrites p := by
  unfold applyPointLogic relayWrites relayLevelsFor
  split_ifs <;> rfl

/-- Sampled tick on which the candidate differs from `lastReading`: the
debounce timer restarts and no acceptance can happen on the same tick. -/
theorem updatePoint_reset (p : PointControl) (v : Int) (now : Nat)
    (h1 : SENSOR_SAMPLE_INTERVAL ≤ now - p.lastSampleTime)
    (h2 : interpretState p v p.currentState ≠ p.lastReading) :
    updatePoint p v now =
      ⟨{ p with lastSampleTime := now, lastDebounceTime := now,
                lastReading := interpretState p v p.currentState,
                lastStatus := p.currentState },
       relayWrites p, 1⟩ := by
  unfold updatePoint
  rw [if_neg (by omega)]
  simp only [interpretState_lastSampleTime]
  simp [h2, DEBOUNCE_DELAY, applyPointLogic_fst, applyPointLogic_snd, relayWrites]

/-- Sampled tick on which the candidate equals `lastReading` but the
acceptance condition fails: only `lastSampleTime` and `lastStatus` move. -/
theorem updatePoint_stable_noaccept (p : PointControl) (v : Int) (now : Nat)
    (h1 : SENSOR_SAMPLE_INTERVAL ≤ now - p.lastSampleTime)
    (h2 : interpretState p v p.currentState = p.lastReading)
    (h3 : ¬(DEBOUNCE_DELAY ≤ now - p.lastDebounceTime ∧
            p.currentState ≠ interpretState p v p.currentState)) :
    updatePoint p v now =
      ⟨{ p with lastSampleTime := now,
                lastReading := interpretState p v p.currentState,
                lastStatus := p.currentState },
       relayWrites p, 1⟩ := by
  rw [h2] at h3
  unfold updatePoint
  rw [if_neg (by omega)]
  simp only [interpretState_lastSampleTime]
  simp [h2, h3, applyPointLogic_fst, applyPointLogic_snd, relayWrites]

/-- Sampled tick on which the candidate equals `lastReading`, the debounce
delay has elapsed, and the candidate differs from the accepted state: the
accepted state changes to the candidate. -/
theorem updatePoint_accept (p : PointControl) (v : Int) (now : Nat)
    (h1 : SENSOR_SAMPLE_INTERVAL ≤ now - p.lastSampleTime)
    (h2 : interpretState p v p.currentState = p.lastReading)
    (h3 : DEBOUNCE_DELAY ≤ now - p.lastDebounceTime)
    (h4 : p.currentState ≠ interpretState p v p.currentState) :
    updatePoint p v now =
      ⟨{ p with lastSampleTime := now,
                lastReading := interpretState p v p.currentState,
                currentState := interpretState p v p.currentState,
                lastAnalogValue := v,
                lastStatus := interpretState p v p.currentState },
       [(p.relayLine1, (relayLevelsFor p.type (interpretState p v p.currentState)).1),
        (p.relayLine2, (relayLevelsFor p.type (interpretState p v p.currentState)).2)],
       1⟩ := by
  have h4' : p.currentState ≠ p.lastReading := by rw [← h2]; exact h4
  unfold updatePoint
  rw [if_neg (by omega)]
  simp only [interpretState_lastSampleTime]
  simp [h2, h3, h4', applyPointLogic_fst, applyPointLogic_snd, relayWrites]

/-- A tick whose candidate equals the accepted state never changes the
accepted state and preserves the configuration fields. -/
theorem updatePoint_fix_state (q : PointControl) (v : Int) (t : Nat)
    (h : interpretState q v q.currentState = q.currentState) :
    (updatePoint q v t).point.currentState = q.currentState ∧
    cfgEq (updatePoint q v t).point q := by
  by_cases hs : t - q.lastSampleTime < SENSOR_SAMPLE_INTERVAL
  · rw [updatePoint_skip q v t hs]
    exact ⟨rfl, rfl, rfl, rfl⟩
  · by_cases hr : interpretState q v q.currentState ≠ q.lastReading
    · rw [updatePoint_reset q v t (by omega) hr]
      exact ⟨rfl, rfl, rfl, rfl⟩
    · push_neg at hr
      rw [updatePoint_stable_noaccept q v t (by omega) hr (fun hc => hc.2 h.symm)]
      exact ⟨rfl, rfl, rfl, rfl⟩

/-- One tick inside a short candidate pulse: if every pulse tick lies in the
window `[t0, t0 + DEBOUNCE_DELAY)` then the accepted state stays put and the
debounce timer never points before `t0`. -/
theorem updatePoint_pulse_step (p0 : PointControl) (A B : Int) (t0 : Nat)
    (q : PointControl) (t : Nat) (v : Int)
    (hc : cfgEq q p0) (hA : q.currentState = A)
    (hinv : q.lastReading = A ∨ t0 ≤ q.lastDebounceTime)
    (ht : t0 ≤ t) (ht2 : t < t0 + DEBOUNCE_DELAY)
    (hv : interpretState p0 v A = B) :
    (updatePoint q v t).point.currentState = A ∧
    cfgEq (updatePoint q v t).point p0 ∧
    ((updatePoint q v t).point.lastReading = A ∨
      t0 ≤ (updatePoint q v t).point.lastDebounceTime) := by
  have hD : DEBOUNCE_DELAY = 50 := rfl
  have hread : interpretState q v q.currentState = B := by
    rw [hA, interpretState_cfg hc.1 hc.2.1 hc.2.2]
    exact hv
  by_cases hs : t - q.lastSampleTime < SENSOR_SAMPLE_INTERVAL
  · rw [updatePoint_skip q v t hs]
    exact ⟨hA, hc, hinv⟩
  · by_cases hr : interpretState q v q.currentState ≠ q.lastReading
    · rw [updatePoint_reset q v t (by omega) hr]
      exact ⟨hA, hc, Or.inr ht⟩
    · push_neg at hr
      rcases hinv with hlr | hldt
      · have hcur : q.currentState = interpretState q v q.currentState := by
          rw [hr, hlr, hA]
        rw [updatePoint_stable_noaccept q v t (by omega) hr (fun hcc => hcc.2 hcur)]
        exact ⟨hA, hc, Or.inl (hr.trans hlr)⟩
      · rw [updatePoint_stable_noaccept q v t (by omega) hr
          (fun hcc => by have h1 := hcc.1; omega)]
        exact ⟨hA, hc, Or.inr hldt⟩

/-- One sampled tick of the stable-candidate phase before acceptance: the
candidate `B` keeps matching `lastReading`, the debounce timer stays at
`t0`, and the tick is too early to accept. -/
theorem updatePoint_early_step (p0 : PointControl) (A B : Int) (t0 tprev : Nat)
    (q : PointControl) (t : Nat) (v : Int)
    (hc : cfgEq q p0) (hA : q.currentState = A) (hlr : q.lastReading = B)
    (hldt : q.lastDebounceTime = t0) (hlst : q.lastSampleTime = tprev)
    (hs : SENSOR_SAMPLE_INTERVAL ≤ t - tprev)
    (ht2 : t < t0 + DEBOUNCE_DELAY)
    (hv : interpretState p0 v A = B) :
    (updatePoint q v t).point =
      { q with lastSampleTime := t, lastReading := B, lastStatus := q.currentState } := by
  have hD : DEBOUNCE_DELAY = 50 := rfl
  have hread : interpretState q v q.currentState = B := by
    rw [hA, interpretState_cfg hc.1 hc.2.1 hc.2.2]
    exact hv
  rw [updatePoint_stable_noaccept q v t (by rw [hlst]; omega) (by rw [hread, hlr])
    (fun hcc => by have h1 := hcc.1; rw [hldt] at h1; omega)]
  simp [hread]

/-- The accepting tick: candidate `B` has matched `lastReading` since `t0`
and `t0 + DEBOUNCE_DELAY ≤ tj`, so the accepted state flips to `B`. -/
theorem updatePoint_accept_step (p0 : PointControl) (A B : Int) (t0 tprev : Nat)
    (q : PointControl) (tj : Nat) (vj : Int)
    (hc : cfgEq q p0) (hA : q.currentState = A) (hlr : q.lastReading = B)
    (hldt : q.lastDebounceTime = t0) (hlst : q.lastSampleTime = tprev)
    (hs : SENSOR_SAMPLE_INTERVAL ≤ tj - tprev)
    (htj : t0 + DEBOUNCE_DELAY ≤ tj)
    (hBA : B ≠ A)
    (hv : interpretState p0 vj A = B) :
    (updatePoint q vj tj).point =
      { q with lastSampleTime := tj, lastReading := B, currentState := B,
               lastAnalogValue := vj, lastStatus := B } := by
  have hD : DEBOUNCE_DELAY = 50 := rfl
  have hread : interpretState q vj q.currentState = B := by
    rw [hA, interpretState_cfg hc.1 hc.2.1 hc.2.2]
    exact hv
  rw [updatePoint_accept q vj tj (by rw [hlst]; omega) (by rw [hread, hlr])
    (by rw [hldt]; omega) (by rw [hread, hA]; exact fun h => hBA h.symm)]
  simp [hread]

theorem runTrace_append (p : PointControl) (l1 l2 : List (Nat × Int)) :
    runTrace p (l1 ++ l2) =
      ((runTrace (runTrace p l1).1 l2).1,
       (runTrace p l1).2 + (runTrace (runTrace p l1).1 l2).2) := by
  induction l1 generalizing p with
  | nil => simp [runTrace]
  | cons tv rest ih =>
      simp only [List.cons_append, runTrace, List.append_eq]
      rw [ih]
      simp [Nat.add_assoc]

theorem sampledChain_append_single (x : Nat × Int) :
    ∀ (l : List (Nat × Int)) (tprev : Nat), sampledChain tprev (l ++ [x]) = true →
      sampledChain tprev l = true ∧ SENSOR_SAMPLE_INTERVAL ≤ x.1 - lastTick tprev l
  | [], tprev => by
      simp [sampledChain, lastTick]
  | y :: rest, tprev => by
      simp only [List.cons_append, sampledChain, Bool.and_eq_true, decide_eq_true_eq, lastTick]
      rintro ⟨h1, h2⟩
      exact ⟨⟨h1, (sampledChain_append_single x rest y.1 h2).1⟩,
             (sampledChain_append_single x rest y.1 h2).2⟩

/-- Running any list of ticks whose candidates (relative to the accepted
state `A`) all equal `A`: the accepted state never changes. -/
theorem run_fix (p0 : PointControl) (A : Int) :
    ∀ (l : List (Nat × Int)) (q : PointControl), cfgEq q p0 → q.currentState = A →
      (∀ tv ∈ l, interpretState p0 tv.2 A = A) →
      cfgEq (runTrace q l).1 p0 ∧ (runTrace q l).1.currentState = A ∧
        (runTrace q l).2 = 0
  | [], q, hc, hA, _ => ⟨hc, hA, rfl⟩
  | (t, v) :: rest, q, hc, hA, hvs => by
      have hread : interpretState q v q.currentState = q.currentState := by
        rw [hA, interpretState_cfg hc.1 hc.2.1 hc.2.2]
        exact hvs (t, v) (by simp)
      obtain ⟨hcur, hcfg⟩ := updatePoint_fix_state q v t hread
      have ih := run_fix p0 A rest (updatePoint q v t).point
        ⟨hcfg.1.trans hc.1, hcfg.2.1.trans hc.2.1, hcfg.2.2.trans hc.2.2⟩
        (hcur.trans hA) (fun tv htv => hvs tv (List.mem_cons_of_mem _ htv))
      simp only [runTrace]
      refine ⟨ih.1, ih.2.1, ?_⟩
      simp [hcur, ih.2.2]

/-- Running a pulse of candidate-`B` ticks confined to the window
`[t0, t0 + DEBOUNCE_DELAY)`: the accepted state `A` never changes. -/
theorem run_stable_A (p0 : PointControl) (A B : Int) (t0 : Nat) :
    ∀ (l : List (Nat × Int)) (q : PointControl), cfgEq q p0 →
      q.currentState = A → (q.lastReading = A ∨ t0 ≤ q.lastDebounceTime) →
      (∀ tv ∈ l, t0 ≤ tv.1 ∧ tv.1 < t0 + DEBOUNCE_DELAY) →
      (∀ tv ∈ l, interpretState p0 tv.2 A = B) →
      cfgEq (runTrace q l).1 p0 ∧ (runTrace q l).1.currentState = A ∧
        ((runTrace q l).1.lastReading = A ∨ t0 ≤ (runTrace q l).1.lastDebounceTime) ∧
        (runTrace q l).2 = 0
  | [], q, hc, hA, hinv, _, _ => ⟨hc, hA, hinv, rfl⟩
  | (t, v) :: rest, q, hc, hA, hinv, hts, hvs => by
      obtain ⟨hcur, hcfg, hinv'⟩ :=
        updatePoint_pulse_step p0 A B t0 q t v hc hA hinv
          (hts (t, v) (by simp)).1 (hts (t, v) (by simp)).2 (hvs (t, v) (by simp))
      have ih := run_stable_A p0 A B t0 rest (updatePoint q v t).point hcfg hcur hinv'
        (fun tv htv => hts tv (List.mem_cons_of_mem _ htv))
        (fun tv htv => hvs tv (List.mem_cons_of_mem _ htv))
      simp only [runTrace]
      refine ⟨ih.1, ih.2.1, ih.2.2.1, ?_⟩
      simp [hcur.trans hA.symm, ih.2.2.2]

/-- Running the sampled stable-candidate phase before the debounce deadline:
the state stays fully determined (accepted state `A`, `lastReading = B`,
timer at `t0`, last sample at the last tick time) and no change is
accepted. -/
theorem run_early (p0 : PointControl) (A B : Int) (t0 : Nat) :
    ∀ (l : List (Nat × Int)) (q : PointControl) (tprev : Nat),
      cfgEq q p0 → q.currentState = A → q.lastReading = B →
      q.lastDebounceTime = t0 → q.lastSampleTime = tprev →
      sampledChain tprev l = true →
      (∀ tv ∈ l, tv.1 < t0 + DEBOUNCE_DELAY) →
      (∀ tv ∈ l, interpretState p0 tv.2 A = B) →
      cfgEq (runTrace q l).1 p0 ∧ (runTrace q l).1.currentState = A ∧
        (runTrace q l).1.lastReading = B ∧ (runTrace q l).1.lastDebounceTime = t0 ∧
        (runTrace q l).1.lastSampleTime = lastTick tprev l ∧ (runTrace q l).2 = 0
  | [], q, tprev, hc, hA, hlr, hldt, hlst, _, _, _ =>
      ⟨hc, hA, hlr, hldt, hlst, rfl⟩
  | (t, v) :: rest, q, tprev, hc, hA, hlr, hldt, hlst, hchain, hts, hvs => by
      simp only [sampledChain, Bool.and_eq_true, decide_eq_true_eq] at hchain
      have hE := updatePoint_early_step p0 A B t0 tprev q t v hc hA hlr hldt hlst
        hchain.1 (hts (t, v) (by simp)) (hvs (t, v) (by simp))
      have hXc : (updatePoint q v t).point.currentState = A := by rw [hE]; exact hA
      have hXcfg : cfgEq (updatePoint q v t).point p0 := by rw [hE]; exact hc
      have hXlr : (updatePoint q v t).point.lastReading = B := by rw [hE]
      have hXldt : (updatePoint q v t).point.lastDebounceTime = t0 := by rw [hE]; exact hldt
      have hXlst : (updatePoint q v t).point.lastSampleTime = t := by rw [hE]
      have ih := run_early p0 A B t0 rest (updatePoint q v t).point t
        hXcfg hXc hXlr hXldt hXlst hchain.2
        (fun tv htv => hts tv (List.mem_cons_of_mem _ htv))
        (fun tv htv => hvs tv (List.mem_cons_of_mem _ htv))
      simp only [runTrace, lastTick]
      refine ⟨ih.1, ih.2.1, ih.2.2.1, ih.2.2.2.1, ih.2.2.2.2.1, ?_⟩
      simp [hXc.trans hA.symm, ih.2.2.2.2.2]

theorem interpret_below (p : PointControl) (v prior : Int)
    (hh : 0 ≤ p.analogHysteresis) (hv : v < lowerBound p) :
    interpretState p v prior = 0 := by
  have hlu := lowerBound_le_upperBound p hh
  unfold interpretState
  simp only [CROSSOVER_ACTIVE, CROSSOVER_INACTIVE, ROUTE_LINE1_TO_LINE3, ROUTE_LINE2_TO_LINE3,
    LOW, HIGH]
  by_cases ht : p.type = POINT_COACTING <;> by_cases hpr : prior = 0 <;>
    simp [ht, hpr] <;> omega

theorem interpret_above (p : PointControl) (v prior : Int)
    (hh : 0 ≤ p.analogHysteresis) (hv : upperBound p < v) :
    interpretState p v prior = 1 := by
  have hlu := lowerBound_le_upperBound p hh
  unfold interpretState
  simp only [CROSSOVER_ACTIVE, CROSSOVER_INACTIVE, ROUTE_LINE1_TO_LINE3, ROUTE_LINE2_TO_LINE3,
    LOW, HIGH]
  by_cases ht : p.type = POINT_COACTING <;> by_cases hpr : prior = 0 <;>
    simp [ht, hpr] <;> omega

theorem interpret_in_band (p : PointControl) (v prior : Int)
    (h1 : lowerBound p ≤ v) (h2 : v ≤ upperBound p)
    (hp : prior = 0 ∨ prior = 1) : interpretState p v prior = prior := by
  unfold interpretState
  simp only [CROSSOVER_ACTIVE, CROSSOVER_INACTIVE, ROUTE_LINE1_TO_LINE3, ROUTE_LINE2_TO_LINE3,
    LOW, HIGH]
  rcases hp with hp | hp <;> subst hp <;>
    by_cases ht : p.type = POINT_COACTING <;> simp [ht] <;> omega

/-- C2: `interpretState` is a Schmitt-trigger comparator: any raw value
strictly below `lowerBound` yields the low-side state (`CROSSOVER_ACTIVE`
resp. `ROUTE_LINE1_TO_LINE3`) regardless of prior state; any value strictly
above `upperBound` yields the high-side state (`CROSSOVER_INACTIVE` resp.
`ROUTE_LINE2_TO_LINE3`) regardless of prior state; and any value in the
closed band `[lowerBound, upperBound]` returns the prior state unchanged. -/
theorem interpret_hysteresis_bands (p : PointControl) (v prior : Int)
    (hh : 0 ≤ p.analogHysteresis) :
    (v < lowerBound p →
      interpretState p v prior =
        (if p.type = POINT_COACTING then CROSSOVER_ACTIVE else ROUTE_LINE1_TO_LINE3)) ∧
    (upperBound p < v →
      interpretState p v prior =
        (if p.type = POINT_COACTING then CROSSOVER_INACTIVE else ROUTE_LINE2_TO_LINE3)) ∧
    (lowerBound p ≤ v → v ≤ upperBound p →
      (p.type = POINT_COACTING → prior = CROSSOVER_ACTIVE ∨ prior = CROSSOVER_INACTIVE →
        interpretState p v prior = prior) ∧
      (p.type = POINT_Y_BRANCH → prior = ROUTE_LINE1_TO_LINE3 ∨ prior = ROUTE_LINE2_TO_LINE3 →
        interpretState p v prior = prior)) := by
  refine ⟨fun hv => ?_, fun hv => ?_, fun h1 h2 => ⟨fun _ hp => ?_, fun _ hp => ?_⟩⟩
  · rw [interpret_below p v prior hh hv]
    simp [CROSSOVER_ACTIVE, ROUTE_LINE1_TO_LINE3, LOW]
  · rw [interpret_above p v prior hh hv]
    simp [CROSSOVER_INACTIVE, ROUTE_LINE2_TO_LINE3, HIGH]
  · exact interpret_in_band p v prior h1 h2 (by
      simpa [CROSSOVER_ACTIVE, CROSSOVER_INACTIVE, LOW, HIGH] using hp)
  · exact interpret_in_band p v prior h1 h2 (by
      simpa [ROUTE_LINE1_TO_LINE3, ROUTE_LINE2_TO_LINE3] using hp)

theorem interpret_hysteresis_bands_check :
    (0 ≤ crossoverPoint.analogHysteresis ∧ 100 < lowerBound crossoverPoint) ∧
    interpretState crossoverPoint 100 CROSSOVER_INACTIVE =
      (if crossoverPoint.type = POINT_COACTING then CROSSOVER_ACTIVE else ROUTE_LINE1_TO_LINE3) :=
  ⟨⟨by decide, by decide⟩,
   (interpret_hysteresis_bands crossoverPoint 100 CROSSOVER_INACTIVE (by decide)).1 (by decide)⟩

/-- C4: for a Y-branch point, every relay application writes exactly one of
the two relays at `TRACK_POWER_ON` and the other at `TRACK_POWER_OFF`,
whatever the accepted state is. -/
theorem ybranch_exactly_one_powered (p : PointControl) (ht : p.type = POINT_Y_BRANCH) :
    (applyPointLogic p).2 =
        [(p.relayLine1, TRACK_POWER_ON), (p.relayLine2, TRACK_POWER_OFF)] ∨
    (applyPointLogic p).2 =
        [(p.relayLine1, TRACK_POWER_OFF), (p.relayLine2, TRACK_POWER_ON)] := by
  rw [applyPointLogic_snd]
  unfold relayWrites relayLevelsFor
  rw [ht]
  by_cases h : p.currentState = ROUTE_LINE1_TO_LINE3 <;> simp [h]

theorem ybranch_exactly_one_powered_check :
    northYPoint.type = POINT_Y_BRANCH ∧
    ((applyPointLogic northYPoint).2 =
        [(northYPoint.relayLine1, TRACK_POWER_ON), (northYPoint.relayLine2, TRACK_POWER_OFF)] ∨
     (applyPointLogic northYPoint).2 =
        [(northYPoint.relayLine1, TRACK_POWER_OFF), (northYPoint.relayLine2, TRACK_POWER_ON)]) :=
  ⟨rfl, ybranch_exactly_one_powered northYPoint rfl⟩

/-- C5: for a coacting point, every relay application writes the same level
to both relays: state `CROSSOVER_ACTIVE` writes both `TRACK_POWER_OFF`,
state `CROSSOVER_INACTIVE` writes both `TRACK_POWER_ON`, so the number of
powered relays is zero or two, never one. -/
theorem coacting_relays_coupled (p : PointControl) (ht : p.type = POINT_COACTING) :
    (p.currentState = CROSSOVER_ACTIVE →
      (applyPointLogic p).2 =
        [(p.relayLine1, TRACK_POWER_OFF), (p.relayLine2, TRACK_POWER_OFF)]) ∧
    (p.currentState = CROSSOVER_INACTIVE →
      (applyPointLogic p).2 =
        [(p.relayLine1, TRACK_POWER_ON), (p.relayLine2, TRACK_POWER_ON)]) ∧
    (relayLevelsFor p.type p.currentState).1 = (relayLevelsFor p.type p.currentState).2 := by
  rw [applyPointLogic_snd]
  unfold relayWrites relayLevelsFor
  rw [ht]
  refine ⟨fun h => by simp [h], fun h => ?_, ?_⟩
  · rw [h]
    simp [CROSSOVER_ACTIVE, CROSSOVER_INACTIVE, LOW, HIGH]
  · by_cases h : p.currentState = CROSSOVER_ACTIVE <;> simp [h]

theorem coacting_relays_coupled_check :
    (crossoverPoint.type = POINT_COACTING ∧ crossoverPoint.currentState = CROSSOVER_ACTIVE) ∧
    (applyPointLogic crossoverPoint).2 =
      [(crossoverPoint.relayLine1, TRACK_POWER_OFF),
       (crossoverPoint.relayLine2, TRACK_POWER_OFF)] :=
  ⟨⟨rfl, rfl⟩, (coacting_relays_coupled crossoverPoint rfl).1 rfl⟩

/-- C6: a call to `updatePoint` before the sampling interval has elapsed
performs no sensor read, no relay write, and leaves every field of the
record unchanged. -/
theorem update_skips_when_interval_not_elapsed (p : PointControl) (v : Int) (now : Nat)
    (h : now - p.lastSampleTime < SENSOR_SAMPLE_INTERVAL) :
    updatePoint p v now = ⟨p, [], 0⟩ := by
  unfold updatePoint
  rw [if_pos h]

theorem update_skips_when_interval_not_elapsed_check :
    5 - crossoverPoint.lastSampleTime < SENSOR_SAMPLE_INTERVAL ∧
    updatePoint crossoverPoint 999 5 = ⟨crossoverPoint, [], 0⟩ :=
  ⟨by decide, update_skips_when_interval_not_elapsed crossoverPoint 999 5 (by decide)⟩

/-- C8: for every controller in the configured `pointControls` array, the
derived clamped bounds bracket the configured threshold:
`lowerBound ≤ threshold ≤ upperBound`. -/
theorem bounds_bracket_threshold :
    ∀ p ∈ pointControls,
      lowerBound p ≤ p.analogThreshold ∧ p.analogThreshold ≤ upperBound p := by
  decide

theorem bounds_bracket_threshold_check :
    crossoverPoint ∈ pointControls ∧
    (lowerBound crossoverPoint ≤ crossoverPoint.analogThreshold ∧
     crossoverPoint.analogThreshold ≤ upperBound crossoverPoint) :=
  ⟨by simp [pointControls], bounds_bracket_threshold crossoverPoint (by simp [pointControls])⟩

/-- C10: if the very first analog reading taken by `initializePoint` lies in
the hysteresis band, the accepted state after initialization is the
hardcoded initial value of the configuration record: `CROSSOVER_ACTIVE` for
the coacting crossover and `ROUTE_LINE1_TO_LINE3` for both Y junctions. -/
theorem init_in_band_keeps_configured_default (v : Int) (now : Nat) :
    (lowerBound crossoverPoint ≤ v → v ≤ upperBound crossoverPoint →
      (initializePoint crossoverPoint v now).point.currentState = CROSSOVER_ACTIVE) ∧
    (lowerBound northYPoint ≤ v → v ≤ upperBound northYPoint →
      (initializePoint northYPoint v now).point.currentState = ROUTE_LINE1_TO_LINE3) ∧
    (lowerBound southYPoint ≤ v → v ≤ upperBound southYPoint →
      (initializePoint southYPoint v now).point.currentState = ROUTE_LINE1_TO_LINE3) := by
  refine ⟨fun h1 h2 => ?_, fun h1 h2 => ?_, fun h1 h2 => ?_⟩ <;>
    simp only [initializePoint, applyPointLogic_fst] <;>
    exact interpret_in_band _ v _ h1 h2 (Or.inl rfl)

theorem init_in_band_keeps_configured_default_check :
    (lowerBound crossoverPoint ≤ 410 ∧ (410 : Int) ≤ upperBound crossoverPoint) ∧
    (initializePoint crossoverPoint 410 1000).point.currentState = CROSSOVER_ACTIVE :=
  ⟨⟨by decide, by decide⟩,
   (init_in_band_keeps_configured_default 410 1000).1 (by decide) (by decide)⟩

/-- C1 counterexample: a sampled tick on which the Debounce Gate reports no
accepted-state change still performs two relay write events (the claim says
none should occur). -/
theorem relay_written_without_state_change :
    (updatePoint crossoverPoint 410 100).point.currentState =
        crossoverPoint.currentState ∧
    (updatePoint crossoverPoint 410 100).writes ≠ [] := by
  decide

/-- C1 amended: `applyPointLogic` runs unconditionally at the end of every
sampled tick, so exactly two relay writes happen on every tick that passes
the sampling-interval test — whether or not the accepted state changed —
and none on a skipped tick. -/
theorem relays_written_every_sampled_tick (p : PointControl) (v : Int) (now : Nat) :
    (updatePoint p v now).writes.length =
      if now - p.lastSampleTime < SENSOR_SAMPLE_INTERVAL then 0 else 2 := by
  by_cases hs : now - p.lastSampleTime < SENSOR_SAMPLE_INTERVAL
  · rw [updatePoint_skip p v now hs, if_pos hs]
    rfl
  · rw [if_neg hs]
    by_cases hr : interpretState p v p.currentState ≠ p.lastReading
    · rw [updatePoint_reset p v now (by omega) hr]
      rfl
    · push_neg at hr
      by_cases hacc : DEBOUNCE_DELAY ≤ now - p.lastDebounceTime ∧
          p.currentState ≠ interpretState p v p.currentState
      · rw [updatePoint_accept p v now (by omega) hr hacc.1 hacc.2]
        rfl
      · rw [updatePoint_stable_noaccept p v now (by omega) hr hacc]
        rfl

/-- C9: `initializePoint`, and every `updatePoint` call on which the
sampling interval had elapsed, finish with relay write events exactly equal
to the relay mapping of the final accepted state, so the relays can never
stay stale with respect to `currentState` across a sampled tick. -/
theorem relays_follow_current_state (p : PointControl) (v : Int) (now : Nat) :
    (initializePoint p v now).writes = relayWrites (initializePoint p v now).point ∧
    (SENSOR_SAMPLE_INTERVAL ≤ now - p.lastSampleTime →
      (updatePoint p v now).writes = relayWrites (updatePoint p v now).point) := by
  constructor
  · unfold initializePoint
    simp only [applyPointLogic_fst, applyPointLogic_snd]
    simp [relayWrites]
  · intro h
    by_cases hr : interpretState p v p.currentState ≠ p.lastReading
    · rw [updatePoint_reset p v now h hr]
      simp [relayWrites]
    · push_neg at hr
      by_cases hacc : DEBOUNCE_DELAY ≤ now - p.lastDebounceTime ∧
          p.currentState ≠ interpretState p v p.currentState
      · rw [updatePoint_accept p v now h hr hacc.1 hacc.2]
        simp [relayWrites]
      · rw [updatePoint_stable_noaccept p v now h hr hacc]
        simp [relayWrites]

theorem relays_follow_current_state_check :
    SENSOR_SAMPLE_INTERVAL ≤ 100 - crossoverPoint.lastSampleTime ∧
    (updatePoint crossoverPoint 410 100).writes =
      relayWrites (updatePoint crossoverPoint 410 100).point ∧
    (initializePoint crossoverPoint 410 100).writes =
      relayWrites (initializePoint crossoverPoint 410 100).point :=
  ⟨by decide,
   (relays_follow_current_state crossoverPoint 410 100).2 (by decide),
   (relays_follow_current_state crossoverPoint 410 100).1⟩

/-- C3: over any sequence of sampled ticks, (1) a candidate-state pulse
confined to a window shorter than `DEBOUNCE_DELAY`, followed by ticks whose
candidate matches the accepted state again, never changes the accepted
state; (2) a candidate `B` that differs from the accepted state `A` and
holds steadily is accepted exactly once, precisely at the first sampled
tick at least `DEBOUNCE_DELAY` after the candidate first appeared. -/
theorem debounce_rejects_pulses_accepts_sustained :
    (∀ (p : PointControl) (A B : Int) (t0 : Nat) (pulse post : List (Nat × Int)),
      p.currentState = A → p.lastReading = A →
      (∀ tv ∈ pulse, t0 ≤ tv.1 ∧ tv.1 < t0 + DEBOUNCE_DELAY) →
      (∀ tv ∈ pulse, interpretState p tv.2 A = B) →
      (∀ tv ∈ post, interpretState p tv.2 A = A) →
      (runTrace p (pulse ++ post)).1.currentState = A ∧
        (runTrace p (pulse ++ post)).2 = 0) ∧
    (∀ (p : PointControl) (A B : Int) (t0 tj : Nat) (v0 vj : Int)
        (earlyRest lateRest : List (Nat × Int)),
      B ≠ A → p.currentState = A → p.lastReading = A →
      sampledChain p.lastSampleTime (((t0, v0) :: earlyRest) ++ [(tj, vj)]) = true →
      interpretState p v0 A = B →
      (∀ tv ∈ earlyRest, tv.1 < t0 + DEBOUNCE_DELAY) →
      (∀ tv ∈ earlyRest, interpretState p tv.2 A = B) →
      t0 + DEBOUNCE_DELAY ≤ tj →
      interpretState p vj A = B →
      (∀ tv ∈ lateRest, interpretState p tv.2 B = B) →
      (runTrace p ((t0, v0) :: earlyRest)).1.currentState = A ∧
      (runTrace p ((t0, v0) :: earlyRest)).2 = 0 ∧
      (runTrace p (((t0, v0) :: earlyRest) ++ [(tj, vj)])).1.currentState = B ∧
      (runTrace p (((t0, v0) :: earlyRest) ++ ((tj, vj) :: lateRest))).1.currentState = B ∧
      (runTrace p (((t0, v0) :: earlyRest) ++ ((tj, vj) :: lateRest))).2 = 1) := by
  constructor
  · intro p A B t0 pulse post hA hLR hts hvs hpost
    have h1 := run_stable_A p A B t0 pulse p ⟨rfl, rfl, rfl⟩ hA (Or.inl hLR) hts hvs
    have h2 := run_fix p A post (runTrace p pulse).1 h1.1 h1.2.1 hpost
    rw [runTrace_append]
    exact ⟨h2.2.1, by simp [h1.2.2.2, h2.2.2]⟩
  · intro p A B t0 tj v0 vj earlyRest lateRest hBA hA hLR hchain hv0 hts hvs htj hvj hlate
    have hr0 : interpretState p v0 p.currentState = B := by
      rw [hA]; exact hv0
    simp only [List.cons_append, sampledChain, Bool.and_eq_true, decide_eq_true_eq] at hchain
    have hsplit := sampledChain_append_single (tj, vj) earlyRest t0 hchain.2
    have hE0 := updatePoint_reset p v0 t0 hchain.1 (by rw [hr0, hLR]; exact hBA)
    have hP0 : (updatePoint p v0 t0).point =
        { p with lastSampleTime := t0, lastDebounceTime := t0,
                 lastReading := interpretState p v0 p.currentState,
                 lastStatus := p.currentState } := by rw [hE0]
    have hq1c : (updatePoint p v0 t0).point.currentState = A := by rw [hP0]; exact hA
    have hq1cfg : cfgEq (updatePoint p v0 t0).point p := by
      rw [hP0]; exact ⟨rfl, rfl, rfl⟩
    have hq1lr : (updatePoint p v0 t0).point.lastReading = B := by rw [hP0]; exact hr0
    have hq1ldt : (updatePoint p v0 t0).point.lastDebounceTime = t0 := by rw [hP0]
    have hq1lst : (updatePoint p v0 t0).point.lastSampleTime = t0 := by rw [hP0]
    have hEarly := run_early p A B t0 earlyRest (updatePoint p v0 t0).point t0
      hq1cfg hq1c hq1lr hq1ldt hq1lst hsplit.1 hts hvs
    have hEj := updatePoint_accept_step p A B t0 (lastTick t0 earlyRest)
      (runTrace (updatePoint p v0 t0).point earlyRest).1 tj vj
      hEarly.1 hEarly.2.1 hEarly.2.2.1 hEarly.2.2.2.1 hEarly.2.2.2.2.1
      hsplit.2 htj hBA hvj
    have hq3c :
        (updatePoint (runTrace (updatePoint p v0 t0).point earlyRest).1 vj tj).point.currentState
          = B := by rw [hEj]
    have hq3cfg :
        cfgEq (updatePoint (runTrace (updatePoint p v0 t0).point earlyRest).1 vj tj).point p := by
      rw [hEj]
      exact hEarly.1
    have hLate := run_fix p B lateRest
      (updatePoint (runTrace (updatePoint p v0 t0).point earlyRest).1 vj tj).point
      hq3cfg hq3c hlate
    have hfst1 : (runTrace p ((t0, v0) :: earlyRest)).1 =
        (runTrace (updatePoint p v0 t0).point earlyRest).1 := rfl
    have hcnt1 : (runTrace p ((t0, v0) :: earlyRest)).2 = 0 := by
      simp only [runTrace]
      simp [hq1c.trans hA.symm, hEarly.2.2.2.2.2]
    refine ⟨by rw [hfst1]; exact hEarly.2.1, hcnt1, ?_, ?_, ?_⟩
    · rw [runTrace_append, hfst1]
      simp only [runTrace]
      exact hq3c
    · rw [runTrace_append, hfst1]
      simp only [runTrace]
      exact hLate.2.1
    · rw [runTrace_append, hfst1, hcnt1]
      simp only [runTrace]
      have hne : (updatePoint (runTrace (updatePoint p v0 t0).point earlyRest).1 vj tj).point.currentState
          ≠ (runTrace (updatePoint p v0 t0).point earlyRest).1.currentState := by
        rw [hq3c, hEarly.2.1]
        exact hBA
      simp [hne, hLate.2.2]

theorem debounce_rejects_pulses_accepts_sustained_check :
    (CROSSOVER_INACTIVE ≠ CROSSOVER_ACTIVE ∧
     crossoverPoint.currentState = CROSSOVER_ACTIVE ∧
     sampledChain crossoverPoint.lastSampleTime
       (((20, 500) :: [(30, 500), (40, 500)]) ++ [(80, 500)]) = true ∧
     interpretState crossoverPoint 500 CROSSOVER_ACTIVE = CROSSOVER_INACTIVE) ∧
    ((runTrace crossoverPoint ((20, 500) :: [(30, 500), (40, 500)])).1.currentState =
        CROSSOVER_ACTIVE ∧
     (runTrace crossoverPoint ((20, 500) :: [(30, 500), (40, 500)])).2 = 0 ∧
     (runTrace crossoverPoint
        (((20, 500) :: [(30, 500), (40, 500)]) ++ [(80, 500)])).1.currentState =
        CROSSOVER_INACTIVE ∧
     (runTrace crossoverPoint
        (((20, 500) :: [(30, 500), (40, 500)]) ++ ((80, 500) :: [(100, 500)]))).1.currentState =
        CROSSOVER_INACTIVE ∧
     (runTrace crossoverPoint
        (((20, 500) :: [(30, 500), (40, 500)]) ++ ((80, 500) :: [(100, 500)]))).2 = 1) :=
  ⟨⟨by decide, rfl, by decide, by decide⟩,
   debounce_rejects_pulses_accepts_sustained.2 crossoverPoint
     CROSSOVER_ACTIVE CROSSOVER_INACTIVE 20 80 500 500
     [(30, 500), (40, 500)] [(100, 500)]
     (by decide) rfl rfl (by decide) (by decide) (by decide) (by decide)
     (by decide) (by decide) (by decide)⟩

end Railway

namespace Crossing

/-- C7: single-step contract of the crossing-light state machine: it
activates on any step where it is inactive and either debounced occupancy
is true; it stays active while either occupancy is true; when active, it
deactivates exactly when both occupancies are false and either the far-side
sensor has been seen (`farSensorSeen`) or at least `RELEASE_TIMEOUT_MS` has
elapsed since `lastOccupancyActivity`, which itself records the time of the
last step on which any occupancy was true. -/
theorem crossing_activation_and_release (s : CrossingState) (w e : Bool) (now : Nat) :
    (s.crossingActive = false → (w || e) = true →
      (refreshCrossingState s w e now).crossingActive = true) ∧
    (s.crossingActive = true → (w || e) = true →
      (refreshCrossingState s w e now).crossingActive = true) ∧
    (s.crossingActive = true →
      ((refreshCrossingState s w e now).crossingActive = false ↔
        (w = false ∧ e = false ∧
          (s.farSensorSeen = true ∨
           RELEASE_TIMEOUT_MS ≤ now - s.lastOccupancyActivity)))) ∧
    ((w || e) = true → (refreshCrossingState s w e now).lastOccupancyActivity = now) ∧
    ((w || e) = false →
      (refreshCrossingState s w e now).lastOccupancyActivity = s.lastOccupancyActivity) := by
  by_cases hA : s.crossingActive = true <;> by_cases hF : s.farSensorSeen = true <;>
    by_cases hT : RELEASE_TIMEOUT_MS ≤ now - s.lastOccupancyActivity <;>
      by_cases hW : s.activeDirection = APPROACH_FROM_WEST <;>
        by_cases hE : s.activeDirection = APPROACH_FROM_EAST <;>
          cases w <;> cases e <;>
            simp_all [refreshCrossingState, activateCrossing, deactivateCrossing] <;>
              (try split_ifs) <;> simp_all

theorem crossing_activation_and_release_check :
    (({ crossingActive := false, activeDirection := APPROACH_NONE, farSensorSeen := false,
        lastOccupancyActivity := 0, leftLampOn := false, lastFlashToggle := 0,
        lightLeft := LIGHT_INACTIVE_STATE, lightRight := LIGHT_INACTIVE_STATE } :
          CrossingState).crossingActive = false ∧ (true || false) = true) ∧
    (refreshCrossingState
      { crossingActive := false, activeDirection := APPROACH_NONE, farSensorSeen := false,
        lastOccupancyActivity := 0, leftLampOn := false, lastFlashToggle := 0,
        lightLeft := LIGHT_INACTIVE_STATE, lightRight := LIGHT_INACTIVE_STATE }
      true false 300).crossingActive = true :=
  ⟨⟨rfl, rfl⟩,
   (crossing_activation_and_release
      { crossingActive := false, activeDirection := APPROACH_NONE, farSensorSeen := false,
        lastOccupancyActivity := 0, leftLampOn := false, lastFlashToggle := 0,
        lightLeft := LIGHT_INACTIVE_STATE, lightRight := LIGHT_INACTIVE_STATE }
      true false 300).1 rfl rfl⟩

end Crossing
